import Mathlib

/-!
Shallow embedding of the rpigotchi firmware (src/firmware/src/main.rs, new.rs,
old.rs, spotify.rs, utils.rs) and proofs about its hardware-lifecycle logic.

The embedding models the observable effect traces of the Rust code: bus
transfers, the panel sleep command, and GPIO unexport writes are recorded as
events; `unwrap` panics are modelled as a distinct outcome constructor.
-/

/-- Error enum from `main.rs`/`new.rs` (`EpaperError`); payloads of the
`Spi`/`Gpio` variants are dropped since no code inspects them. -/
inductive EpaperError where
  | Spi
  | Gpio
  | DisplayInit
  | PinExportTimeout
deriving DecidableEq, Repr

/-- Observable hardware-facing events of a run: framebuffer clear (in-memory),
full-refresh push (`update_and_display_frame` while the LUT is Full),
quick-mode push, the `set_refresh(Quick)` bus command, `clear_frame`, the
panel deep-sleep command, and a GPIO unexport write for a given line. -/
inductive Ev where
  | fbClear
  | pushFull
  | pushQuick
  | setRefreshQuick
  | clearFrame
  | sleepCmd
  | unexport (line : Nat)
deriving DecidableEq, Repr

/-- Outcome of a modelled Rust function: normal return, `Err` propagated
through the `Result` type, or a panic raised by `unwrap`. -/
inductive Outcome where
  | ok
  | err (e : EpaperError)
  | panicked
deriving DecidableEq, Repr

/-- True exactly on GPIO unexport events. -/
def isUnexport : Ev → Bool
  | Ev.unexport _ => true
  | _ => false

/- ## C6 / C3: components not under src/ -/

/-- Modelled from the spec: PinHandle (§3, §4.1). The repository delegates the
handle to the external `sysfs_gpio` crate, so the handle state is taken from
the spec's data model: line number and whether the line is currently
exported (direction is irrelevant to release). -/
structure PinHandle where
  line : Nat
  exported : Bool
deriving DecidableEq, Repr

/-- A side-effecting kernel call recorded by the PinHandle model. -/
inductive PinSyscall where
  | unexportWrite (line : Nat)
deriving DecidableEq, Repr

/-- Modelled from the spec: `release()` (§4.1) — best-effort un-export. It
issues the unexport write only when the line is currently exported, so a
release of a never-exported handle, or a second release, performs no
side-effecting system call and raises no error. -/
def release (p : PinHandle) : PinHandle × List PinSyscall :=
  if p.exported then ({ p with exported := false }, [PinSyscall.unexportWrite p.line])
  else (p, [])

/-- Modelled from the spec: DisplayController lifecycle states (§4.2). The
state machine itself lives in the external `epd_waveshare` crate, so it is
modelled from the spec's description. -/
inductive CtrlState where
  | Uninitialized
  | Configured
  | AwakeFull
  | AwakeQuick
  | Asleep
  | Failed
deriving DecidableEq, Repr

/-- Refresh mode requested for a push (`RefreshLut` in the source's crate). -/
inductive RefreshLut where
  | Full
  | Quick
deriving DecidableEq, Repr

/-- Result of a modelled `push_frame`: successor state, the bus transfers
that were sent, and the returned value. -/
structure PushResult where
  next : CtrlState
  xfers : List Ev
  result : Except EpaperError Unit
deriving Repr

/-- Modelled from the spec: `push_frame(bitmap, mode)` (§4.2, §7). Full
pushes are allowed from `Configured`, `AwakeFull` and `AwakeQuick` and land
in `AwakeFull`; quick pushes are allowed only from `AwakeFull`/`AwakeQuick`;
a quick push from `Configured` is a usage error: it is rejected with a
`DisplayInit` error and no bus transfer is sent. Pushing from any other
state is likewise a disallowed transition. -/
def push_frame : CtrlState → RefreshLut → PushResult
  | CtrlState.Configured, RefreshLut.Full =>
      ⟨CtrlState.AwakeFull, [Ev.pushFull], Except.ok ()⟩
  | CtrlState.AwakeFull, RefreshLut.Full =>
      ⟨CtrlState.AwakeFull, [Ev.pushFull], Except.ok ()⟩
  | CtrlState.AwakeQuick, RefreshLut.Full =>
      ⟨CtrlState.AwakeFull, [Ev.pushFull], Except.ok ()⟩
  | CtrlState.AwakeFull, RefreshLut.Quick =>
      ⟨CtrlState.AwakeQuick, [Ev.pushQuick], Except.ok ()⟩
  | CtrlState.AwakeQuick, RefreshLut.Quick =>
      ⟨CtrlState.AwakeQuick, [Ev.pushQuick], Except.ok ()⟩
  | CtrlState.Configured, RefreshLut.Quick =>
      ⟨CtrlState.Configured, [], Except.error EpaperError.DisplayInit⟩
  | s, _ => ⟨s, [], Except.error EpaperError.DisplayInit⟩

/- ## C7: time-string right alignment (main.rs lines 190-199, utils.rs) -/

/-- Two-digit zero-padded decimal rendering, as produced by chrono's `%H`,
`%M`, `%S` for values below 100. -/
def pad2 (n : Nat) : String :=
  String.mk [Char.ofNat (48 + n / 10), Char.ofNat (48 + n % 10)]

/-- The `%H:%M:%S` time string built in the render loop. -/
def formatHMS (h m s : Nat) : String :=
  pad2 h ++ ":" ++ pad2 m ++ ":" ++ pad2 s

/-- The x-offset the loop passes to `draw_text` for the time string:
`250 - (time_str.len() as i32 * 10)`. -/
def timeX (t : String) : Int :=
  250 - ((t.length : Int) * 10)

/- ## C8: spinner phase (main.rs lines 151, 168, 209) -/

/-- The fixed glyph cycle `["|", "/", "-", "\\"]` from main.rs line 151. -/
def spinner : List String := ["|", "/", "-", "\\"]

/-- Value of the loop counter `i` at the start of the n-th render cycle:
`i` starts at 0 and is updated to `(i + 1) % spinner.len()` after each
push (main.rs line 209). -/
def spinnerIndex : Nat → Nat
  | 0 => 0
  | n + 1 => (spinnerIndex n + 1) % spinner.length

/-- The glyph drawn on the n-th render cycle:
`spinner[i % spinner.len()]` (main.rs line 168). -/
def spinnerGlyph (n : Nat) : Option String :=
  spinner.get? (spinnerIndex n % spinner.length)

/- ## C10: spotify.rs get_client_data -/

/-- `Client` struct from spotify.rs. -/
structure Client where
  client_id : String
  client_secret : String
deriving DecidableEq, Repr

/-- Outcome of `get_client_data`: a panic (from `unwrap` on `env::var`) or a
constructed `Client`. The function has no error return type. -/
inductive ClientOutcome where
  | panicked
  | ok (c : Client)
deriving DecidableEq, Repr

/-- `get_client_data` from spotify.rs: `env::var("CLIENT_ID").unwrap()` then
`env::var("CLIENT_SECRET").unwrap()`. `envVar` is the process environment
after `dotenv().ok()` has run; a missing variable makes `env::var` return
`Err`, which `unwrap` turns into a panic. -/
def get_client_data (envVar : String → Option String) : ClientOutcome :=
  match envVar "CLIENT_ID" with
  | none => ClientOutcome.panicked
  | some cid =>
    match envVar "CLIENT_SECRET" with
    | none => ClientOutcome.panicked
    | some cs => ClientOutcome.ok { client_id := cid, client_secret := cs }

/- ## C4: pin acquisition polling (main.rs lines 96-133, old.rs lines 92-101) -/

/-- Result of waiting for a pin export to be acknowledged: either the pin
became exported, or the wait timed out; both record the modelled elapsed
time in milliseconds when the loop returned. -/
inductive PollResult where
  | exported (elapsedMs : Nat)
  | timedOut (elapsedMs : Nat)
deriving DecidableEq, Repr

/-- The export-wait loop shared by `setup_output_pin` and `setup_input_pin`
in main.rs: while the pin is not exported, if more than 100 ms have elapsed
return `PinExportTimeout`, otherwise sleep 5 ms and re-check. `ready t` is
the value `pin.is_exported()` reports at elapsed time `t` ms; each sleep
advances the modelled clock by exactly 5 ms. -/
def export_wait (ready : Nat → Bool) (elapsed : Nat) : PollResult :=
  if ready elapsed then PollResult.exported elapsed
  else if _hto : elapsed > 100 then PollResult.timedOut elapsed
  else export_wait ready (elapsed + 5)
termination_by 101 - elapsed
decreasing_by omega

/-- The export-wait loop of `export_pin` in old.rs: while the pin is not
exported, sleep 10 ms and re-check — there is no timeout branch at all.
`checks` is an observation bound (number of readiness checks watched);
`none` means the loop was still polling after that many checks. -/
def export_pin_wait_old (ready : Nat → Bool) : Nat → Nat → Option Nat
  | 0, _ => none
  | checks + 1, elapsed =>
    if ready elapsed then some elapsed
    else export_pin_wait_old ready checks (elapsed + 10)

/- ## C1 / C2 / C5 / C9: run loop, shutdown, run_epaper_app (main.rs 135-253,
new.rs 191-203) -/

/-- Environment of one run: results of the hardware calls the run makes.
`pushOk k` is whether the k-th `update_and_display_frame` call succeeds
(k = 0 is the initial full push, k = 1 the first loop push, ...);
`setRefreshOk`/`clearFrameOk` are the results of the two unwrapped bus
calls before the loop; `sleepOk` that of `epd.sleep` in shutdown; `stopAt`
is the index of the first loop-condition check at which `running` is
observed false (the Ctrl+C handler stored false before that check and the
flag stays false from then on). -/
structure Env where
  pushOk : Nat → Bool
  setRefreshOk : Bool
  clearFrameOk : Bool
  sleepOk : Bool
  stopAt : Nat

/-- The `while running.load(..)` loop of main.rs run (lines 163-213), given
the number `n` of remaining checks that observe `running == true` and the
index `k` of the next push. Each iteration clears the in-memory framebuffer,
draws the spinner glyph and texts (in-memory, infallible), then pushes the
frame in quick mode; a push failure is propagated with `?` and ends the
loop. When the check observes false the loop exits with `Ok(())`. -/
def renderLoop (pushOk : Nat → Bool) : Nat → Nat → List Ev × Outcome
  | 0, _ => ([], Outcome.ok)
  | n + 1, k =>
    if pushOk k then
      (Ev.fbClear :: Ev.pushQuick :: (renderLoop pushOk n (k + 1)).1,
       (renderLoop pushOk n (k + 1)).2)
    else
      ([Ev.fbClear, Ev.pushQuick], Outcome.err EpaperError.Spi)

/-- `EpaperApp::run` from main.rs (lines 135-216): clear the framebuffer and
push one full refresh (`?` on failure), then `set_refresh(Quick).unwrap()`
and `clear_frame(..).unwrap()` — a failure of either is a panic, not an
`Err` — then the render loop. -/
def runModel (env : Env) : List Ev × Outcome :=
  if env.pushOk 0 then
    if env.setRefreshOk then
      if env.clearFrameOk then
        (Ev.fbClear :: Ev.pushFull :: Ev.setRefreshQuick :: Ev.clearFrame
          :: (renderLoop env.pushOk env.stopAt 1).1,
         (renderLoop env.pushOk env.stopAt 1).2)
      else
        ([Ev.fbClear, Ev.pushFull, Ev.setRefreshQuick, Ev.clearFrame], Outcome.panicked)
    else
      ([Ev.fbClear, Ev.pushFull, Ev.setRefreshQuick], Outcome.panicked)
  else
    ([Ev.fbClear, Ev.pushFull], Outcome.err EpaperError.Spi)

/-- `EpaperApp::shutdown` from main.rs (lines 218-231): `epd.sleep(..)?`
(the failure is propagated, not swallowed), then nothing else — the four
`unexport` calls are commented out, so no pin is released. -/
def shutdownModel (sleepOk : Bool) : List Ev × Except EpaperError Unit :=
  if sleepOk then ([Ev.sleepCmd], Except.ok ())
  else ([Ev.sleepCmd], Except.error EpaperError.Spi)

/-- `EpaperApp::shutdown` from new.rs (lines 191-203): `epd.sleep(..)?`
(again propagated), and only after a successful sleep the four pins
cs = 26, busy = 24, dc = 25, rst = 17 are unexported, each with `.ok()`. -/
def shutdownNew (sleepOk : Bool) : List Ev × Except EpaperError Unit :=
  if sleepOk then
    ([Ev.sleepCmd, Ev.unexport 26, Ev.unexport 24, Ev.unexport 25, Ev.unexport 17],
     Except.ok ())
  else
    ([Ev.sleepCmd], Except.error EpaperError.Spi)

/-- `run_epaper_app` from main.rs (lines 236-241), after a successful
`new()`: `app.run()?` then `app.shutdown()?`. Because of the `?`, shutdown
runs only when `run` returned `Ok`; a panic inside `run` likewise skips
shutdown. -/
def runEpaperApp (env : Env) : List Ev × Outcome :=
  match (runModel env).2 with
  | Outcome.ok =>
    ((runModel env).1 ++ (shutdownModel env.sleepOk).1,
     match (shutdownModel env.sleepOk).2 with
     | Except.ok _ => Outcome.ok
     | Except.error e => Outcome.err e)
  | o => ((runModel env).1, o)

/-- The C5 scenario environment: every hardware call succeeds and the stop
flag is observed at the 4th loop check (index 3). -/
def envScenario : Env :=
  { pushOk := fun _ => true, setRefreshOk := true, clearFrameOk := true,
    sleepOk := true, stopAt := 3 }

/-- Environment in which the push inside the final cycle fails: the initial
full push (index 0) succeeds, the single loop push (index 1) returns an SPI
error, and the stop flag would have been observed at check 1. -/
def envC1x : Env :=
  { pushOk := fun k => k == 0, setRefreshOk := true, clearFrameOk := true,
    sleepOk := true, stopAt := 1 }

/-- Fully successful two-cycle environment. -/
def envC1w : Env :=
  { pushOk := fun _ => true, setRefreshOk := true, clearFrameOk := true,
    sleepOk := true, stopAt := 2 }

/-- Environment in which `set_refresh(RefreshLut::Quick)` fails. -/
def envC9 : Env :=
  { pushOk := fun _ => true, setRefreshOk := false, clearFrameOk := true,
    sleepOk := true, stopAt := 0 }

/- ## Theorems -/

/-- The render loop never issues the sleep command: sleep belongs to
shutdown only. -/
theorem renderLoop_no_sleep (pushOk : Nat → Bool) :
    ∀ n k, ((renderLoop pushOk n k).1.count Ev.sleepCmd) = 0 := by
  intro n
  induction n with
  | zero => intro k; rfl
  | succ n ih =>
    intro k
    cases hp : pushOk k <;> simp [renderLoop, hp, ih (k + 1)]

/-- `run` itself never issues the sleep command on any path. -/
theorem runModel_no_sleep (env : Env) :
    ((runModel env).1.count Ev.sleepCmd) = 0 := by
  unfold runModel
  split <;> (try split) <;> (try split) <;>
    simp [List.count_cons, renderLoop_no_sleep env.pushOk env.stopAt 1]

/-- When every push succeeds, the loop performs exactly `n` quick pushes,
no sleep command, and exits with `Ok`. -/
theorem renderLoop_counts (pushOk : Nat → Bool) (hp : ∀ j, pushOk j = true) :
    ∀ n k, ((renderLoop pushOk n k).1.count Ev.pushQuick) = n
      ∧ (renderLoop pushOk n k).2 = Outcome.ok := by
  intro n
  induction n with
  | zero => intro k; exact ⟨rfl, rfl⟩
  | succ n ih =>
    intro k
    obtain ⟨ihc, iho⟩ := ih (k + 1)
    simp [renderLoop, hp k, List.count_cons, ihc, iho]

/-- `shutdown` (main.rs) always attempts exactly the sleep command and
nothing else, whether or not the sleep succeeds. -/
theorem shutdownModel_trace (b : Bool) : (shutdownModel b).1 = [Ev.sleepCmd] := by
  cases b <;> rfl

/-- C3: requesting a quick refresh while the controller is in state
`Configured` (no prior full refresh this session) is rejected with a usage
error (`DisplayInit`) and no bus transfer is sent. -/
theorem quick_from_configured_rejected :
    (push_frame CtrlState.Configured RefreshLut.Quick).xfers = []
    ∧ (push_frame CtrlState.Configured RefreshLut.Quick).result
        = Except.error EpaperError.DisplayInit :=
  ⟨rfl, rfl⟩

/-- C6: `release()` on a PinHandle that was never exported returns the handle
unchanged with no system call and no error, and a second `release()` right
after a first one likewise has no observable effect. -/
theorem release_idempotent (p : PinHandle) :
    (p.exported = false → release p = (p, []))
    ∧ release (release p).1 = ((release p).1, []) := by
  constructor
  · intro h
    simp [release, h]
  · cases hp : p.exported <;> simp [release, hp]

/-- Witness for C6: `release_idempotent` evaluated on concrete handles — a
never-exported handle on line 26, and a double release on line 24. -/
theorem release_idempotent_witness :
    release ⟨26, false⟩ = (⟨26, false⟩, [])
    ∧ release (release ⟨24, true⟩).1 = ((release ⟨24, true⟩).1, []) :=
  ⟨(release_idempotent ⟨26, false⟩).1 rfl, (release_idempotent ⟨24, true⟩).2⟩

/-- C7: for every valid H:M:S time (hours < 24, minutes and seconds < 60),
the rendered zero-padded string has 8 glyphs, the x-offset computed by the
loop equals the panel width 250 minus 8 glyphs times the 10-pixel glyph
width, and the offset is not negative. -/
theorem time_string_right_aligned (h m s : Nat)
    (hh : h < 24) (hm : m < 60) (hs : s < 60) :
    (formatHMS h m s).length = 8
    ∧ timeX (formatHMS h m s) = 250 - 8 * 10
    ∧ 0 ≤ timeX (formatHMS h m s) := by
  have hlen : (formatHMS h m s).length = 8 := rfl
  refine ⟨hlen, ?_, ?_⟩ <;> simp [timeX, hlen]

/-- Witness for C7: the right-alignment theorem evaluated at 23:59:07. -/
theorem time_string_right_aligned_witness :
    (formatHMS 23 59 7).length = 8
    ∧ timeX (formatHMS 23 59 7) = 250 - 8 * 10
    ∧ 0 ≤ timeX (formatHMS 23 59 7) :=
  time_string_right_aligned 23 59 7 (by decide) (by decide) (by decide)

/-- C8: the spinner is deterministic and periodic with period 4: the counter
at cycle n equals n mod 4, the glyph drawn on cycle n is element n mod 4 of
the fixed cycle, and the glyph sequence repeats every 4 cycles. -/
theorem spinner_period_four (n : Nat) :
    spinnerIndex n = n % 4
    ∧ spinnerGlyph n = spinner.get? (n % 4)
    ∧ spinnerGlyph (n + 4) = spinnerGlyph n := by
  have hsl : spinner.length = 4 := rfl
  have hidx : ∀ k, spinnerIndex k = k % 4 := by
    intro k
    induction k with
    | zero => rfl
    | succ k ih =>
      show (spinnerIndex k + 1) % spinner.length = (k + 1) % 4
      rw [ih, hsl]
      omega
  refine ⟨hidx n, ?_, ?_⟩
  · show spinner.get? (spinnerIndex n % spinner.length) = spinner.get? (n % 4)
    rw [hidx n, hsl]
    exact congrArg spinner.get? (by omega)
  · show spinner.get? (spinnerIndex (n + 4) % spinner.length)
        = spinner.get? (spinnerIndex n % spinner.length)
    rw [hidx n, hidx (n + 4), hsl]
    exact congrArg spinner.get? (by omega)

/-- C10: when CLIENT_ID or CLIENT_SECRET is absent from the environment,
`get_client_data` panics (unwrap) rather than returning a `Client` or an
error value, and whenever it does return a `Client`, both variables were
present and are copied into the result. -/
theorem get_client_data_unwrap (envVar : String → Option String) :
    ((envVar "CLIENT_ID" = none ∨ envVar "CLIENT_SECRET" = none)
        → get_client_data envVar = ClientOutcome.panicked)
    ∧ (∀ c, get_client_data envVar = ClientOutcome.ok c
        → envVar "CLIENT_ID" = some c.client_id
          ∧ envVar "CLIENT_SECRET" = some c.client_secret) := by
  constructor
  · rintro (h | h) <;> cases h1 : envVar "CLIENT_ID" <;>
      simp_all [get_client_data]
  · intro c hc
    unfold get_client_data at hc
    cases h1 : envVar "CLIENT_ID" with
    | none =>
      rw [h1] at hc
      exact absurd hc (by simp)
    | some cid =>
      rw [h1] at hc
      cases h2 : envVar "CLIENT_SECRET" with
      | none =>
        rw [h2] at hc
        exact absurd hc (by simp)
      | some cs =>
        rw [h2] at hc
        simp only [ClientOutcome.ok.injEq] at hc
        subst hc
        exact ⟨rfl, rfl⟩

/-- Witness for C10: with an empty environment `get_client_data` panics; with
both variables set to "x" and "y" it returns the corresponding client. -/
theorem get_client_data_unwrap_witness :
    get_client_data (fun _ => none) = ClientOutcome.panicked
    ∧ ((fun v => if v = "CLIENT_ID" then some "x" else some "y") "CLIENT_ID" = some "x"
        ∧ (fun v => if v = "CLIENT_ID" then some "x" else some "y") "CLIENT_SECRET" = some "y") :=
  ⟨(get_client_data_unwrap (fun _ => none)).1 (Or.inl rfl),
   (get_client_data_unwrap (fun v => if v = "CLIENT_ID" then some "x" else some "y")).2
     ⟨"x", "y"⟩ rfl⟩

/-- C1 counterexample: in `envC1x` the push inside the final cycle returns
an SPI error; `run` propagates it and `run_epaper_app`'s `app.run()?`
returns before `app.shutdown()` — the sleep command is issued 0 times, not
exactly once as the claim states. -/
theorem push_failure_skips_shutdown_cex :
    (runModel envC1x).2 = Outcome.err EpaperError.Spi
    ∧ ((runEpaperApp envC1x).1.count Ev.sleepCmd) = 0 := by
  decide

/-- C1 (amended): once the gate is observed "stop" the loop exits without a
further push (a run with `stopAt` continue-observations performs exactly
`stopAt` loop pushes, so at most the in-flight cycle's push follows the
flag store); on runs where every push succeeds shutdown runs exactly once,
but when `run` returns a push error shutdown is never entered. -/
theorem run_shutdown_once (env : Env)
    (hs : env.setRefreshOk = true) (hc : env.clearFrameOk = true) :
    ((∀ k, env.pushOk k = true) →
        ((runEpaperApp env).1.count Ev.pushQuick) = env.stopAt
        ∧ ((runEpaperApp env).1.count Ev.sleepCmd) = 1)
    ∧ ∀ e, (runModel env).2 = Outcome.err e →
        ((runEpaperApp env).1.count Ev.sleepCmd) = 0 := by
  constructor
  · intro hp
    obtain ⟨hcq, hok⟩ := renderLoop_counts env.pushOk hp env.stopAt 1
    have hrm : runModel env
        = (Ev.fbClear :: Ev.pushFull :: Ev.setRefreshQuick :: Ev.clearFrame
            :: (renderLoop env.pushOk env.stopAt 1).1, Outcome.ok) := by
      unfold runModel
      rw [hp 0, hs, hc, hok]
      simp
    unfold runEpaperApp
    rw [hrm]
    simp [List.count_append, List.count_cons, hcq, shutdownModel_trace env.sleepOk,
      renderLoop_no_sleep env.pushOk env.stopAt 1]
  · intro e he
    unfold runEpaperApp
    rw [he]
    simp [runModel_no_sleep env]

/-- Witness for C1 (amended): the fully successful two-cycle run `envC1w`
pushes twice and sleeps once; the failing run `envC1x` never sleeps. -/
theorem run_shutdown_once_witness :
    (((runEpaperApp envC1w).1.count Ev.pushQuick) = 2
      ∧ ((runEpaperApp envC1w).1.count Ev.sleepCmd) = 1)
    ∧ ((runEpaperApp envC1x).1.count Ev.sleepCmd) = 0 :=
  ⟨(run_shutdown_once envC1w rfl rfl).1 (fun _ => rfl),
   (run_shutdown_once envC1x rfl rfl).2 EpaperError.Spi (by decide)⟩

/-- C2 counterexample: `shutdown` from new.rs with a failing sleep command
returns the SPI error through its `Result` (the claim says the failure is
never propagated) and, because `?` returns early, unexports none of the
four pins (the claim says all four are released on every path). -/
theorem sleep_failure_propagates_cex :
    shutdownNew false = ([Ev.sleepCmd], Except.error EpaperError.Spi) := rfl

/-- C2 (amended): both shutdown variants propagate a sleep failure through
`?`. The main.rs variant releases no pin on any path (its cleanup is
commented out); the new.rs variant releases all four pins, each with
best-effort `.ok()`, but only on the path where sleep succeeded. -/
theorem shutdown_release_behavior :
    (∀ b, ((shutdownModel b).1.countP isUnexport) = 0)
    ∧ shutdownModel false = ([Ev.sleepCmd], Except.error EpaperError.Spi)
    ∧ shutdownNew true
        = ([Ev.sleepCmd, Ev.unexport 26, Ev.unexport 24, Ev.unexport 25, Ev.unexport 17],
           Except.ok ())
    ∧ shutdownNew false = ([Ev.sleepCmd], Except.error EpaperError.Spi) := by
  refine ⟨?_, rfl, rfl, rfl⟩
  intro b
  cases b <;> rfl

/-- C4 counterexample: `export_pin` from old.rs, watched for 21 readiness
checks (a modelled 210 ms, past the claimed 100 ms bound) with a pin that
never becomes exported, is still polling: it has no timeout branch and
never returns `PinExportTimeout`. -/
theorem old_export_pin_no_timeout_cex :
    export_pin_wait_old (fun _ => false) 21 0 = none := rfl

/-- C4 (amended): when the readiness predicate never becomes true, the
main.rs wait loop polls every 5 ms and returns `PinExportTimeout` at a
modelled 105 ms — the 100 ms bound plus one 5 ms polling granularity —
so that acquisition terminates; the old.rs loop instead polls every 10 ms
with no timeout and never returns, however long it is watched. -/
theorem acquire_never_ready (ready : Nat → Bool) (h : ∀ t, ready t = false) :
    export_wait ready 0 = PollResult.timedOut 105
    ∧ ∀ checks elapsed, export_pin_wait_old ready checks elapsed = none := by
  constructor
  · simp [export_wait, h]
  · intro checks
    induction checks with
    | zero => intro e; rfl
    | succ c ih =>
      intro e
      simp [export_pin_wait_old, h, ih]

/-- Witness for C4 (amended): the theorem evaluated on the constantly-false
readiness predicate. -/
theorem acquire_never_ready_witness :
    export_wait (fun _ => false) 0 = PollResult.timedOut 105
    ∧ ∀ checks elapsed, export_pin_wait_old (fun _ => false) checks elapsed = none :=
  acquire_never_ready (fun _ => false) (fun _ => rfl)

/-- C5 counterexample: in the 3-cycle scenario the run releases zero pins
(the claim requires all 4 released after sleep): no unexport event appears
in the whole trace of `run_epaper_app`. -/
theorem scenario_no_pin_release_cex :
    ((runEpaperApp envScenario).1.countP isUnexport) = 0 := by
  decide

/-- C5 (amended): the scenario run — gate observed "continue" at checks
0-2 and "stop" at check 3, all hardware calls succeeding — clears the
framebuffer and performs exactly 1 initial full-refresh push, switches the
refresh mode to quick, clears the panel frame, performs exactly 3
quick-mode pushes (each after a framebuffer clear), then issues the sleep
command; no pin is released. -/
theorem scenario_trace :
    runEpaperApp envScenario
      = ([Ev.fbClear, Ev.pushFull, Ev.setRefreshQuick, Ev.clearFrame,
          Ev.fbClear, Ev.pushQuick, Ev.fbClear, Ev.pushQuick, Ev.fbClear, Ev.pushQuick,
          Ev.sleepCmd], Outcome.ok) := by
  decide

/-- C9: if `set_refresh(Quick)` fails, or `set_refresh` succeeds and
`clear_frame` fails, `run` panics through `unwrap`: the outcome is a panic,
never an `Err` surfaced through the `Result` type, and no shutdown path
(no sleep command) runs. -/
theorem unwrap_panics_on_mode_switch (env : Env) (h0 : env.pushOk 0 = true)
    (h : env.setRefreshOk = false ∨ (env.setRefreshOk = true ∧ env.clearFrameOk = false)) :
    (runModel env).2 = Outcome.panicked
    ∧ (∀ e, (runModel env).2 ≠ Outcome.err e)
    ∧ ((runEpaperApp env).1.count Ev.sleepCmd) = 0 := by
  have hp : (runModel env).2 = Outcome.panicked := by
    rcases h with h | ⟨h1, h2⟩ <;> simp [runModel, h0, *]
  refine ⟨hp, ?_, ?_⟩
  · intro e hcontra
    rw [hp] at hcontra
    exact Outcome.noConfusion hcontra
  · unfold runEpaperApp
    rw [hp]
    simp [runModel_no_sleep env]

/-- Witness for C9: `envC9`, where `set_refresh(Quick)` fails and everything
else succeeds. -/
theorem unwrap_panics_witness :
    (runModel envC9).2 = Outcome.panicked
    ∧ (∀ e, (runModel envC9).2 ≠ Outcome.err e)
    ∧ ((runEpaperApp envC9).1.count Ev.sleepCmd) = 0 :=
  unwrap_panics_on_mode_switch envC9 rfl (Or.inl rfl)
